import Mathlib

/-!
A verification development for the librarian replication engine: a shallow
embedding of the clone orchestrator (`librarian_background/create_clone.py`),
the standing-order manager and search compiler
(`server/librarian_server/search.py`), with theorems about the claims made by
the natural-language specification.
-/

set_option linter.unusedVariables false

/-! ## Clone orchestrator (`librarian_background/create_clone.py`) -/

/-- Modelled from the spec: the `TransferStatus` enumeration of
`librarian_server.orm` (not under `src/`); §4.4 names the states
`PENDING`, `STAGED`, `COMPLETED`, `FAILED`. -/
inductive TransferStatus where
  | PENDING
  | STAGED
  | COMPLETED
  | FAILED
deriving DecidableEq

/-- A `File` row as used by the orchestrator: `instance.file.name` and
`instance.file.size`. -/
structure FileRec where
  name : String
  size : Nat
deriving DecidableEq

/-- A `FileInstance` row as used by the orchestrator: id, store-relative
path, the owning file, the store it lives on and its deletion policy. -/
structure InstanceRec where
  id : Nat
  path : String
  file : FileRec
  storeId : Nat
  deletionPolicy : Nat
deriving DecidableEq

/-- A `CloneTransfer` row: one attempt to replicate a source instance to a
destination store. -/
structure CloneTransferRec where
  id : Nat
  sourceStoreId : Nat
  destinationStoreId : Nat
  sourceInstanceId : Nat
  destinationInstanceId : Option Nat
  transferManagerName : Option String
  status : TransferStatus
  startTime : Int
  endTime : Option Int
deriving DecidableEq

namespace CloneTransferRec

/-- Modelled from the spec: `CloneTransfer.new_transfer` of
`librarian_server.orm` (not under `src/`); §4.4 step 3: a CloneTransfer row is
created in state PENDING, with no destination instance and no transfer
manager chosen yet. -/
def new_transfer (id sourceStoreId destinationStoreId sourceInstanceId : Nat)
    (now : Int) : CloneTransferRec :=
  { id := id
    sourceStoreId := sourceStoreId
    destinationStoreId := destinationStoreId
    sourceInstanceId := sourceInstanceId
    destinationInstanceId := none
    transferManagerName := none
    status := TransferStatus.PENDING
    startTime := now
    endTime := none }

/-- Modelled from the spec: `CloneTransfer.fail_transfer` of
`librarian_server.orm` (not under `src/`); "mark the transfer FAILED" with an
end timestamp (§4.4 steps 4-6). -/
def fail_transfer (t : CloneTransferRec) (now : Int) : CloneTransferRec :=
  { t with status := TransferStatus.FAILED, endTime := some now }

end CloneTransferRec

namespace InstanceRec

/-- Modelled from the spec: `Instance.new_instance` of `librarian_server.orm`
(not under `src/`); §4.4 step 7: a new Instance record pointing at the
destination store, built from the path, file and deletion policy it is
given. -/
def new_instance (id : Nat) (path : String) (file : FileRec) (storeId : Nat)
    (deletionPolicy : Nat) : InstanceRec :=
  { id := id
    path := path
    file := file
    storeId := storeId
    deletionPolicy := deletionPolicy }

end InstanceRec

/-- Outcome of one `store_from.store_manager.transfer_out` call: either a
returned boolean, or a raised `FileNotFoundError`. -/
inductive TransferOutcome where
  | result (success : Bool)
  | fileNotFound
deriving DecidableEq

/-- The behavior of the external store capabilities during the processing of
one instance: the result of `stage` (`none` models the `ValueError` raised
when the file cannot fit), the destination store transfer managers in
iteration order with the outcome each reports, and whether `commit` raises
`FileExistsError`. -/
structure InstanceEnv where
  stage : Option (String × String)
  transferManagers : List (String × TransferOutcome)
  commitExists : Bool
deriving DecidableEq

/-- Accumulator for the transfer-manager loop of `CreateClone.on_call`
(create_clone.py lines 119-144): the running value of the `success` local,
the sequence of statuses written to the transfer record by `fail_transfer`
calls inside the loop, the current value of the `tm_name` loop variable, and
the managers for which `transfer_out` was invoked. -/
structure TmLoopAcc where
  success : Bool
  statusWrites : List TransferStatus
  lastName : Option String
  attempted : List String
deriving DecidableEq

/-- One iteration of the transfer-manager loop. `success` is assigned the
returned boolean (a raised `FileNotFoundError` leaves it unchanged); a falsy
result or a missing source file calls `transfer.fail_transfer()` and the loop
continues with the next manager. -/
def tmLoopStep (acc : TmLoopAcc) (p : String × TransferOutcome) : TmLoopAcc :=
  match p.2 with
  | TransferOutcome.fileNotFound =>
      { success := acc.success
        statusWrites := acc.statusWrites ++ [TransferStatus.FAILED]
        lastName := some p.1
        attempted := acc.attempted ++ [p.1] }
  | TransferOutcome.result b =>
      if b then
        { success := true
          statusWrites := acc.statusWrites
          lastName := some p.1
          attempted := acc.attempted ++ [p.1] }
      else
        { success := false
          statusWrites := acc.statusWrites ++ [TransferStatus.FAILED]
          lastName := some p.1
          attempted := acc.attempted ++ [p.1] }

/-- The whole transfer-manager loop: `success = False` before it, then one
`tmLoopStep` per configured manager, in iteration order. -/
def tmLoop (tms : List (String × TransferOutcome)) : TmLoopAcc :=
  tms.foldl tmLoopStep
    { success := false, statusWrites := [], lastName := none, attempted := [] }

/-- What processing one instance produced: the final transfer record, the
sequence of status values the record held over time (starting at PENDING),
the new destination instance if one was created, the `(staging_path,
store_path)` arguments of each `commit` call, the managers tried, and whether
the clone counted as successful. -/
structure PerInstanceResult where
  transfer : CloneTransferRec
  history : List TransferStatus
  newInstance : Option InstanceRec
  commitCalls : List (String × String)
  attemptedManagers : List String
  success : Bool
deriving DecidableEq

/-- The body of the per-instance part of `CreateClone.on_call`
(create_clone.py lines 94-195), for an instance with no matching destination
instance: create the transfer (PENDING), stage, run the transfer-manager
loop, then commit, unstage and create the destination instance. -/
def processInstance (env : InstanceEnv) (srcStoreId destStoreId : Nat)
    (inst : InstanceRec) (transferId newInstanceId : Nat) (now : Int) :
    PerInstanceResult :=
  let t0 := CloneTransferRec.new_transfer transferId srcStoreId destStoreId
    inst.id now
  match env.stage with
  | none =>
      { transfer := t0.fail_transfer now
        history := [TransferStatus.PENDING, TransferStatus.FAILED]
        newInstance := none
        commitCalls := []
        attemptedManagers := []
        success := false }
  | some (stagingName, stagedPath) =>
      let loopRes := tmLoop env.transferManagers
      if loopRes.success then
        let t1 := { t0 with
          transferManagerName := loopRes.lastName
          status := TransferStatus.STAGED }
        if env.commitExists then
          { transfer := t1.fail_transfer now
            history := TransferStatus.PENDING :: loopRes.statusWrites
              ++ [TransferStatus.STAGED, TransferStatus.FAILED]
            newInstance := none
            commitCalls := [(stagedPath, inst.file.name)]
            attemptedManagers := loopRes.attempted
            success := false }
        else
          let ni := InstanceRec.new_instance newInstanceId inst.path inst.file
            destStoreId inst.deletionPolicy
          { transfer := { t1 with
              destinationInstanceId := some ni.id
              status := TransferStatus.COMPLETED
              endTime := some now }
            history := TransferStatus.PENDING :: loopRes.statusWrites
              ++ [TransferStatus.STAGED, TransferStatus.COMPLETED]
            newInstance := some ni
            commitCalls := [(stagedPath, inst.file.name)]
            attemptedManagers := loopRes.attempted
            success := true }
      else
        { transfer := t0.fail_transfer now
          history := TransferStatus.PENDING :: loopRes.statusWrites
            ++ [TransferStatus.FAILED]
          newInstance := none
          commitCalls := []
          attemptedManagers := loopRes.attempted
          success := false }

/-- One instance selected for a run, together with the behavior of the store
capabilities while it is processed. -/
structure SourceItem where
  inst : InstanceRec
  env : InstanceEnv
deriving DecidableEq

/-- The evolving state of one `CreateClone.on_call` run: the per-instance
results for the transfers created so far, the names of files that currently
have an instance on the destination store, the two summary counters, and a
fresh-id counter for new rows. -/
structure RunState where
  results : List PerInstanceResult
  destFiles : List String
  successfulClones : Nat
  unnecessaryClones : Nat
  nextId : Nat
deriving DecidableEq

/-- One iteration of the instance loop of `CreateClone.on_call`
(create_clone.py lines 79-195): skip (and count as unnecessary) when an
instance of the same file already exists on the destination store, otherwise
create a transfer and process the instance; a completed clone adds its new
destination instance to the destination store. -/
def runCloneStep (srcStoreId destStoreId : Nat) (now : Int) (acc : RunState)
    (item : SourceItem) : RunState :=
  if acc.destFiles.contains item.inst.file.name then
    { acc with unnecessaryClones := acc.unnecessaryClones + 1 }
  else
    let r := processInstance item.env srcStoreId destStoreId item.inst
      acc.nextId (acc.nextId + 1) now
    { results := acc.results ++ [r]
      destFiles := acc.destFiles ++
        (match r.newInstance with
         | some ni => [ni.file.name]
         | none => [])
      successfulClones := acc.successfulClones + (if r.success then 1 else 0)
      unnecessaryClones := acc.unnecessaryClones
      nextId := acc.nextId + 2 }

/-- A whole `CreateClone.on_call` run over the instances selected on the
source store, starting from the given set of files present on the
destination store. -/
def runClone (srcStoreId destStoreId : Nat) (now : Int)
    (items : List SourceItem) (destFiles0 : List String) (startId : Nat) :
    RunState :=
  items.foldl (runCloneStep srcStoreId destStoreId now)
    { results := []
      destFiles := destFiles0
      successfulClones := 0
      unnecessaryClones := 0
      nextId := startId }

/-! ## Standing order manager (`server/librarian_server/search.py`, lines
461-535) -/

/-- `MIN_STANDING_ORDER_INTERVAL = 1200` seconds (search.py line 465). -/
def MIN_STANDING_ORDER_INTERVAL : ℚ := 1200

/-- The state the `StandingOrderManager` singleton holds: the `last_check`
timestamp and the `launch_queued` flag (search.py lines 498-499). -/
structure SOManagerState where
  last_check : ℚ
  launch_queued : Bool
deriving DecidableEq

/-- What one `maybe_launch_copies` call did: its return value, the manager
state afterwards, and the names of the standing orders it evaluated (in
order; empty when no real evaluation happened). -/
structure MaybeLaunchResult where
  ret : Bool
  state : SOManagerState
  evaluated : List String
deriving DecidableEq

namespace SOManagerState

/-- `StandingOrderManager.maybe_launch_copies` (search.py lines 501-535):
skip (returning False) when fewer than `MIN_STANDING_ORDER_INTERVAL` seconds
elapsed since `last_check`; otherwise consult the configured
`standing_order_mode` string — `disabled` returns True without doing
anything, `nighttime` does the same when the local hour is in [8, 20), and
any other mode (with a warning for unrecognized ones) runs every persisted
standing order and sets `last_check := now`. -/
def maybe_launch_copies (s : SOManagerState) (now : ℚ) (localHour : Nat)
    (mode : String) (orders : List String) : MaybeLaunchResult :=
  if now - s.last_check < MIN_STANDING_ORDER_INTERVAL then
    { ret := false, state := s, evaluated := [] }
  else if mode = "disabled" then
    { ret := true, state := s, evaluated := [] }
  else if mode = "nighttime" ∧ 8 ≤ localHour ∧ localHour < 20 then
    { ret := true, state := s, evaluated := [] }
  else
    { ret := true
      state := { s with last_check := now }
      evaluated := orders }

end SOManagerState

/-! ## Search compiler (`server/librarian_server/search.py`, lines 34-367)

Searches are JSON values; `json.loads` (Python standard library, external)
yields strings, ints, floats, lists and dicts, embedded here as `JVal`.
Python floats are embedded as rationals. The file compiler below carries a
`now` parameter (in days) standing for `datetime.datetime.utcnow()`, used by
the two time-window clauses. The cross-entity Observation clauses
(`obs-matches` and the proxied `start-time-jd`/`stop-time-jd`/
`start-lst-hr`/`session-id` clauses), which consult the Observation table,
are outside the embedded clause table; like any unregistered clause name
they compile to an error here. -/

/-- A parsed JSON value, as produced by `json.loads`. -/
inductive JVal where
  | str (s : String)
  | int (n : Int)
  | float (q : ℚ)
  | arr (xs : List JVal)
  | obj (fields : List (String × JVal))

/-- The numeric value of a payload when `isinstance(payload, (int, float))`
holds. -/
def numVal : JVal → Option ℚ
  | JVal.int n => some (n : ℚ)
  | JVal.float q => some q
  | _ => none

/-- SQL `LIKE` matching as used by `attr_getter().like(payload)`: `%` matches
any run of characters, `_` matches exactly one, anything else matches
itself. -/
def sqlLikeChars : List Char → List Char → Bool
  | [], [] => true
  | '%' :: ps, [] => sqlLikeChars ps []
  | _ :: _, [] => false
  | [], _ :: _ => false
  | '%' :: ps, c :: cs => sqlLikeChars ps (c :: cs) || sqlLikeChars ('%' :: ps) cs
  | '_' :: ps, _ :: cs => sqlLikeChars ps cs
  | p :: ps, c :: cs => (p = c) && sqlLikeChars ps cs
termination_by ps cs => (ps.length, cs.length)

/-- SQL `LIKE` on strings. -/
def sqlLike (pat s : String) : Bool :=
  sqlLikeChars pat.data s.data

/-- `GenericSearchCompiler._do_str_matches`: payload must be text; the
predicate is a `LIKE` match on the attribute. -/
def do_str_matches {E : Type} (attr_getter : E → String) (clause_name : String)
    (payload : JVal) : Except String (E → Bool) :=
  match payload with
  | JVal.str pat =>
      Except.ok (fun e => sqlLike pat (attr_getter e))
  | _ =>
      Except.error ("cannot parse " ++ clause_name
        ++ " clause: contents must be text")

/-- `GenericSearchCompiler._do_str_is_exactly`. -/
def do_str_is_exactly {E : Type} (attr_getter : E → String)
    (clause_name : String) (payload : JVal) : Except String (E → Bool) :=
  match payload with
  | JVal.str p => Except.ok (fun e => attr_getter e == p)
  | _ =>
      Except.error ("cannot parse " ++ clause_name
        ++ " clause: contents must be text")

/-- `GenericSearchCompiler._do_str_is_not`. -/
def do_str_is_not {E : Type} (attr_getter : E → String)
    (clause_name : String) (payload : JVal) : Except String (E → Bool) :=
  match payload with
  | JVal.str p => Except.ok (fun e => !(attr_getter e == p))
  | _ =>
      Except.error ("cannot parse " ++ clause_name
        ++ " clause: contents must be text")

/-- `GenericSearchCompiler._do_int_is_exactly`: payload must be an int, not a
float. -/
def do_int_is_exactly {E : Type} (attr_getter : E → Int)
    (clause_name : String) (payload : JVal) : Except String (E → Bool) :=
  match payload with
  | JVal.int n => Except.ok (fun e => attr_getter e == n)
  | _ =>
      Except.error ("cannot parse " ++ clause_name
        ++ " clause: contents must be an integer")

/-- `GenericSearchCompiler._do_int_is_not`. -/
def do_int_is_not {E : Type} (attr_getter : E → Int)
    (clause_name : String) (payload : JVal) : Except String (E → Bool) :=
  match payload with
  | JVal.int n => Except.ok (fun e => !(attr_getter e == n))
  | _ =>
      Except.error ("cannot parse " ++ clause_name
        ++ " clause: contents must be an integer")

/-- `GenericSearchCompiler._do_num_greater_than`: payload may be an int or a
float. -/
def do_num_greater_than {E : Type} (attr_getter : E → ℚ)
    (clause_name : String) (payload : JVal) : Except String (E → Bool) :=
  match numVal payload with
  | some q => Except.ok (fun e => decide (q < attr_getter e))
  | none =>
      Except.error ("cannot parse " ++ clause_name
        ++ " clause: contents must be numeric")

/-- `GenericSearchCompiler._do_num_less_than`. -/
def do_num_less_than {E : Type} (attr_getter : E → ℚ)
    (clause_name : String) (payload : JVal) : Except String (E → Bool) :=
  match numVal payload with
  | some q => Except.ok (fun e => decide (attr_getter e < q))
  | none =>
      Except.error ("cannot parse " ++ clause_name
        ++ " clause: contents must be numeric")

/-- `GenericSearchCompiler._do_num_in_range`: payload must be a list of two
numbers; the pair is swapped when the first is larger, and the predicate is
the inclusive range check `v1 <= value AND value <= v2`. -/
def do_num_in_range {E : Type} (attr_getter : E → ℚ) (clause_name : String)
    (payload : JVal) : Except String (E → Bool) :=
  match payload with
  | JVal.arr [x, y] =>
      match numVal x, numVal y with
      | some a, some b =>
          let v1 := if a > b then b else a
          let v2 := if a > b then a else b
          Except.ok (fun e =>
            decide (v1 ≤ attr_getter e) && decide (attr_getter e ≤ v2))
      | _, _ =>
          Except.error ("cannot parse " ++ clause_name
            ++ " clause: contents must be a list of two numbers")
  | _ =>
      Except.error ("cannot parse " ++ clause_name
        ++ " clause: contents must be a list of two numbers")

/-- `GenericSearchCompiler._do_num_not_in_range`: same normalization, with
the predicate `value < v1 OR value > v2`. -/
def do_num_not_in_range {E : Type} (attr_getter : E → ℚ)
    (clause_name : String) (payload : JVal) : Except String (E → Bool) :=
  match payload with
  | JVal.arr [x, y] =>
      match numVal x, numVal y with
      | some a, some b =>
          let v1 := if a > b then b else a
          let v2 := if a > b then a else b
          Except.ok (fun e =>
            decide (attr_getter e < v1) || decide (v2 < attr_getter e))
      | _, _ =>
          Except.error ("cannot parse " ++ clause_name
            ++ " clause: contents must be a list of two numbers")
  | _ =>
      Except.error ("cannot parse " ++ clause_name
        ++ " clause: contents must be a list of two numbers")

/-- A `File` row of the searchable database (`server/librarian_server`):
the attributes the file search compiler exposes, with `create_time`
measured in days. `num_instances` stands for the value of the
`_file_get_num_instances` subquery for this file. -/
structure SearchFile where
  name : String
  ftype : String
  source : String
  size : Int
  obsid : Int
  numInstances : Int
  createTime : ℚ
deriving DecidableEq

/-- An attribute accessor together with its declared type, as in the
`(attr name, attr type, attr getter)` triples handed to
`GenericSearchCompiler._add_attributes`. -/
inductive AttrGetter (E : Type) where
  | str (get : E → String)
  | int (get : E → Int)
  | float (get : E → ℚ)

/-- One registered searchable attribute. -/
structure AttrSpec (E : Type) where
  attrName : String
  getter : AttrGetter E

/-- `GenericSearchCompiler._add_attributes` for one attribute: the clause
names (underscores replaced by dashes) and implementations it registers.
String attributes get `-is-exactly`, `-is-not` and `-matches`; int
attributes get `-is-exactly` and `-is-not` plus the four numeric-comparison
clauses; float attributes get only the numeric-comparison clauses. -/
def attrClauses {E : Type} (a : AttrSpec E) :
    List (String × (String → JVal → Except String (E → Bool))) :=
  let cn := String.mk (a.attrName.data.map (fun c => if c = '_' then '-' else c))
  match a.getter with
  | AttrGetter.str g =>
      [(cn ++ "-is-exactly", do_str_is_exactly g),
       (cn ++ "-is-not", do_str_is_not g),
       (cn ++ "-matches", do_str_matches g)]
  | AttrGetter.int g =>
      [(cn ++ "-is-exactly", do_int_is_exactly g),
       (cn ++ "-is-not", do_int_is_not g),
       (cn ++ "-greater-than", do_num_greater_than (fun e => (g e : ℚ))),
       (cn ++ "-less-than", do_num_less_than (fun e => (g e : ℚ))),
       (cn ++ "-in-range", do_num_in_range (fun e => (g e : ℚ))),
       (cn ++ "-not-in-range", do_num_not_in_range (fun e => (g e : ℚ)))]
  | AttrGetter.float g =>
      [(cn ++ "-greater-than", do_num_greater_than g),
       (cn ++ "-less-than", do_num_less_than g),
       (cn ++ "-in-range", do_num_in_range g),
       (cn ++ "-not-in-range", do_num_not_in_range g)]

/-- `simple_file_attrs` (search.py lines 262-269). -/
def simple_file_attrs : List (AttrSpec SearchFile) :=
  [⟨"name", AttrGetter.str (fun f => f.name)⟩,
   ⟨"type", AttrGetter.str (fun f => f.ftype)⟩,
   ⟨"source", AttrGetter.str (fun f => f.source)⟩,
   ⟨"size", AttrGetter.int (fun f => f.size)⟩,
   ⟨"obsid", AttrGetter.int (fun f => f.obsid)⟩,
   ⟨"num-instances", AttrGetter.int (fun f => f.numInstances)⟩]

/-- The attribute-clause table of the `FileSearchCompiler`. -/
def fileClauseTable :
    List (String × (String → JVal → Except String (SearchFile → Bool))) :=
  (simple_file_attrs.map attrClauses).flatten

/-- Attribute-clause lookup, with the two compatibility aliases registered by
`FileSearchCompiler.__init__`: `name-like` for `name-matches` and
`source-is` for `source-is-exactly`. -/
def lookupFileClause (name : String) :
    Option (String → JVal → Except String (SearchFile → Bool)) :=
  let key :=
    if name = "name-like" then "name-matches"
    else if name = "source-is" then "source-is-exactly"
    else name
  (fileClauseTable.find? (fun p => p.1 == key)).map Prod.snd

mutual

/-- `GenericSearchCompiler._compile_clause` for the file compiler: the
structural clauses `and`, `or`, `none-of` take a non-empty dict of
sub-clauses and recurse; `always-true` and `always-false` ignore their
payload; `not-older-than` and `not-newer-than` take a day count and compare
`File.create_time` against `now - payload`; everything else is looked up in
the attribute-clause table, and unknown names are an error. -/
def compileFileClause (now : ℚ) (name : String) (payload : JVal) :
    Except String (SearchFile → Bool) :=
  if name = "and" then
    match payload with
    | JVal.obj fields =>
        if fields.isEmpty then
          Except.error "cannot parse and clause: contents must be a dict"
        else
          match compileFileClauses now fields with
          | Except.ok ps => Except.ok (fun e => ps.all (fun p => p e))
          | Except.error err => Except.error err
    | _ => Except.error "cannot parse and clause: contents must be a dict"
  else if name = "or" then
    match payload with
    | JVal.obj fields =>
        if fields.isEmpty then
          Except.error "cannot parse or clause: contents must be a dict"
        else
          match compileFileClauses now fields with
          | Except.ok ps => Except.ok (fun e => ps.any (fun p => p e))
          | Except.error err => Except.error err
    | _ => Except.error "cannot parse or clause: contents must be a dict"
  else if name = "none-of" then
    match payload with
    | JVal.obj fields =>
        if fields.isEmpty then
          Except.error "cannot parse none-of clause: contents must be a dict"
        else
          match compileFileClauses now fields with
          | Except.ok ps => Except.ok (fun e => !(ps.any (fun p => p e)))
          | Except.error err => Except.error err
    | _ => Except.error "cannot parse none-of clause: contents must be a dict"
  else if name = "always-true" then
    Except.ok (fun _ => true)
  else if name = "always-false" then
    Except.ok (fun _ => false)
  else if name = "not-older-than" then
    match numVal payload with
    | some d => Except.ok (fun f => decide (now - d < f.createTime))
    | none =>
        Except.error
          "cannot parse not-older-than clause: contents must be numeric"
  else if name = "not-newer-than" then
    match numVal payload with
    | some d => Except.ok (fun f => decide (f.createTime < now - d))
    | none =>
        Except.error
          "cannot parse not-newer-than clause: contents must be numeric"
  else
    match lookupFileClause name with
    | some impl => impl name payload
    | none =>
        Except.error ("cannot parse search: unrecognized clause " ++ name)

/-- Compile each `(clause name, payload)` pair of a dict in order, stopping
at the first error. -/
def compileFileClauses (now : ℚ) (fields : List (String × JVal)) :
    Except String (List (SearchFile → Bool)) :=
  match fields with
  | [] => Except.ok []
  | (n, pl) :: rest =>
      match compileFileClause now n pl with
      | Except.ok p =>
          match compileFileClauses now rest with
          | Except.ok ps => Except.ok (p :: ps)
          | Except.error err => Except.error err
      | Except.error err => Except.error err

end

/-- `GenericSearchCompiler.compile` for the file compiler: the search must
be a dict, which is treated as an implicit `and` of its clauses. -/
def compileFileSearch (now : ℚ) (search : JVal) :
    Except String (SearchFile → Bool) :=
  match search with
  | JVal.obj _ => compileFileClause now "and" search
  | _ => Except.error "cannot parse search: data must be in dict format"

/-! ## Standing orders (`server/librarian_server/search.py`, lines 370-459
and 620-671) -/

/-- A persisted `StandingOrder` row: unique name, search (stored as text in
the database, embedded here in its parsed JSON form), and destination
connection name. -/
structure StandingOrderRec where
  id : Nat
  name : String
  search : JVal
  connName : String

/-- `StandingOrder.__init__` (search.py lines 393-397): store the three
fields, then `_validate`, which compiles the search and propagates its error
if there is one. An order whose search does not compile is never
constructed. -/
def StandingOrder_init (now : ℚ) (id : Nat) (name : String) (search : JVal)
    (conn_name : String) : Except String StandingOrderRec :=
  match compileFileSearch now search with
  | Except.ok _ =>
      Except.ok { id := id, name := name, search := search
                  connName := conn_name }
  | Except.error err => Except.error err

/-- `default_search` (search.py lines 614-617) in parsed form, after the
`#`-comment on the second line is stripped. -/
def default_search : JVal :=
  JVal.obj
    [("name-matches", JVal.str "any-file-named-like-%-this"),
     ("not-older-than", JVal.int 14)]

/-- The `create_standing_order` route (search.py lines 620-641): reject an
empty name; construct (and thereby validate) a `StandingOrder` carrying
`default_search` and the placeholder connection, and commit it; on any
failure the database is left unchanged. -/
def create_standing_order (now : ℚ) (dbase : List StandingOrderRec)
    (newId : Nat) (name : String) : List StandingOrderRec :=
  if name.length = 0 then dbase
  else
    match StandingOrder_init now newId name default_search
      "undefined-connection" with
    | Except.ok storder => dbase ++ [storder]
    | Except.error _ => dbase

/-- The `update_standing_order` route (search.py lines 644-671): find the
order by name; set its name, connection and search to the posted values and
`_validate`; commit the updated row only when validation succeeds, otherwise
report the failure and leave the database unchanged. -/
def update_standing_order (now : ℚ) (dbase : List StandingOrderRec)
    (name new_name new_conn : String) (new_search : JVal) :
    List StandingOrderRec :=
  match dbase.find? (fun o => o.name == name) with
  | none => dbase
  | some o =>
      let o2 : StandingOrderRec :=
        { o with name := new_name, connName := new_conn
                 search := new_search }
      match compileFileSearch now o2.search with
      | Except.ok _ =>
          dbase.map (fun x => if x.id == o.id then o2 else x)
      | Except.error _ => dbase

/-- `StandingOrder.event_type` (search.py lines 405-407). -/
def event_type (o : StandingOrderRec) : String :=
  "standing_order_succeeded:" ++ o.name

/-- A `FileEvent` row: the file name it is attached to and its type
string. -/
structure FileEventRec where
  name : String
  etype : String
deriving DecidableEq

/-- An entry of `the_task_manager.tasks` as inspected by
`get_files_to_copy`: whether it is an `UploaderTask`, its destination store
path, the standing-order name it carries, and its `exception` field. -/
structure UploaderTaskRec where
  isUploader : Bool
  store_path : String
  standing_order_name : String
  exception : Option String
deriving DecidableEq

/-- `os.path.basename` (for the slash-separated paths used here): the part
after the last `/`. -/
def basename (p : String) : String :=
  String.mk (p.data.foldl (fun acc c => if c = '/' then [] else acc ++ [c]) [])

/-- `StandingOrder.get_files_to_copy` (search.py lines 409-443): compile the
stored search (propagating its error), keep the files it matches, drop files
already bearing a FileEvent of this order's `event_type`, and drop files
whose name is the destination-path basename of an uploader task carrying
this order's name whose `exception` is `None`. -/
def get_files_to_copy (now : ℚ) (o : StandingOrderRec)
    (files : List SearchFile) (events : List FileEventRec)
    (tasks : List UploaderTaskRec) : Except String (List SearchFile) :=
  match compileFileSearch now o.search with
  | Except.error err => Except.error err
  | Except.ok p =>
      let base := files.filter p
      let q := base.filter (fun f =>
        !(events.any (fun e => e.name == f.name && e.etype == event_type o)))
      let already_launched := tasks.filterMap (fun t =>
        if t.isUploader && t.standing_order_name == o.name
            && t.exception == none then
          some (basename t.store_path)
        else none)
      Except.ok (q.filter (fun f => !(already_launched.contains f.name)))

/-! ## Concrete inputs used by the closed theorems and witnesses below -/

/-- A source instance whose store-relative path differs from its bare file
name. -/
def c1Inst : InstanceRec :=
  { id := 1, path := "2458000/a.uv", file := { name := "a.uv", size := 10 }
    storeId := 1, deletionPolicy := 0 }

/-- Store behavior with two transfer managers that both report success. -/
def c1Env : InstanceEnv :=
  { stage := some ("staging0", "staged/a.uv")
    transferManagers := [("a", TransferOutcome.result true),
                         ("b", TransferOutcome.result true)]
    commitExists := false }

/-- Store behavior with two transfer managers: the first reports failure,
the second reports success. -/
def c2Env : InstanceEnv :=
  { stage := some ("staging0", "staged/a.uv")
    transferManagers := [("a", TransferOutcome.result false),
                         ("b", TransferOutcome.result true)]
    commitExists := false }

/-- A single-manager environment that always reports failure. -/
def c4FailEnv : InstanceEnv :=
  { stage := some ("staging0", "staged/a.uv")
    transferManagers := [("a", TransferOutcome.result false)]
    commitExists := false }

/-- One selected instance whose transfer fails in every run. -/
def c4Items : List SourceItem :=
  [{ inst := c1Inst, env := c4FailEnv }]

/-- A single-manager environment that reports success. -/
def c4GoodEnv : InstanceEnv :=
  { stage := some ("staging0", "staged/a.uv")
    transferManagers := [("a", TransferOutcome.result true)]
    commitExists := false }

/-- One selected instance whose transfer completes. -/
def c4GoodItems : List SourceItem :=
  [{ inst := c1Inst, env := c4GoodEnv }]

/-- A source instance for the path-recording theorem. -/
def c9Inst : InstanceRec :=
  { id := 3, path := "2458001/b.uv", file := { name := "b.uv", size := 7 }
    storeId := 1, deletionPolicy := 2 }

/-- A single-manager environment that reports success. -/
def c9Env : InstanceEnv :=
  { stage := some ("staging1", "staged/b.uv")
    transferManagers := [("m", TransferOutcome.result true)]
    commitExists := false }

/-- A standing order whose stored search compiles. -/
def w6dbase : List StandingOrderRec :=
  [{ id := 1, name := "so1", search := JVal.obj [("always-true", JVal.int 0)]
     connName := "conn" }]

/-- A search using an unregistered clause name, which does not compile. -/
def w6bad : JVal := JVal.obj [("bogus-clause", JVal.int 1)]

/-- A file matched and yielded by the witness standing order. -/
def w8fileA : SearchFile :=
  { name := "a.uv", ftype := "uv", source := "x", size := 1, obsid := 1
    numInstances := 1, createTime := 0 }

/-- A file excluded by a success marker event. -/
def w8fileB : SearchFile :=
  { name := "b.uv", ftype := "uv", source := "x", size := 1, obsid := 1
    numInstances := 1, createTime := 0 }

/-- A file excluded by an in-flight copy task. -/
def w8fileC : SearchFile :=
  { name := "c.uv", ftype := "uv", source := "x", size := 1, obsid := 1
    numInstances := 1, createTime := 0 }

/-- The file population for the `get_files_to_copy` witness. -/
def w8files : List SearchFile := [w8fileA, w8fileB, w8fileC]

/-- A standing order matching every file. -/
def w8order : StandingOrderRec :=
  { id := 1, name := "so1", search := JVal.obj [("always-true", JVal.int 0)]
    connName := "conn" }

/-- One success marker for `w8fileB`. -/
def w8events : List FileEventRec :=
  [{ name := "b.uv", etype := "standing_order_succeeded:so1" }]

/-- One live uploader task for `w8fileC`, and one for `w8fileA` that ended
in an exception (so `w8fileA` is eligible for retry). -/
def w8tasks : List UploaderTaskRec :=
  [{ isUploader := true, store_path := "store/c.uv"
     standing_order_name := "so1", exception := none },
   { isUploader := true, store_path := "store/a.uv"
     standing_order_name := "so1", exception := some "boom" }]

/-! ## Helper lemmas -/

/-- Whichever way staging, the transfer managers and the commit behave, the
transfer record a single-instance processing step leaves behind is in a
terminal state. -/
theorem processInstance_status_terminal (env : InstanceEnv)
    (srcS dstS : Nat) (inst : InstanceRec) (tid nid : Nat) (now : Int) :
    (processInstance env srcS dstS inst tid nid now).transfer.status
        = TransferStatus.COMPLETED ∨
    (processInstance env srcS dstS inst tid nid now).transfer.status
        = TransferStatus.FAILED := by
  unfold processInstance
  split
  · simp [CloneTransferRec.fail_transfer]
  · by_cases hs : (tmLoop env.transferManagers).success = true <;>
      by_cases hcm : env.commitExists = true <;>
      simp [hs, hcm, CloneTransferRec.fail_transfer]

/-- Folding the instance loop preserves "every recorded transfer is
terminal". -/
theorem runClone_results_terminal_aux (s d : Nat) (now : Int)
    (items : List SourceItem) (acc : RunState)
    (h : ∀ r ∈ acc.results,
      r.transfer.status = TransferStatus.COMPLETED ∨
      r.transfer.status = TransferStatus.FAILED) :
    ∀ r ∈ (items.foldl (runCloneStep s d now) acc).results,
      r.transfer.status = TransferStatus.COMPLETED ∨
      r.transfer.status = TransferStatus.FAILED := by
  induction items generalizing acc with
  | nil => simpa using h
  | cons item rest ih =>
      rw [List.foldl_cons]
      apply ih
      unfold runCloneStep
      split
      · simpa using h
      · intro r hr
        simp only [List.mem_append, List.mem_singleton] at hr
        rcases hr with hr | hr
        · exact h r hr
        · subst hr
          exact processInstance_status_terminal _ _ _ _ _ _ _

/-- When every selected instance's file is already present on the
destination store, the instance loop only increments the unnecessary
counter. -/
theorem runClone_skips_when_present_aux (s d : Nat) (now : Int)
    (items : List SourceItem) (acc : RunState)
    (h : ∀ item ∈ items, acc.destFiles.contains item.inst.file.name = true) :
    items.foldl (runCloneStep s d now) acc
      = { acc with
          unnecessaryClones := acc.unnecessaryClones + items.length } := by
  induction items generalizing acc with
  | nil => simp
  | cons item rest ih =>
      rw [List.foldl_cons]
      have hitem : acc.destFiles.contains item.inst.file.name = true :=
        h item (by simp)
      have hstep : runCloneStep s d now acc item
          = { acc with unnecessaryClones := acc.unnecessaryClones + 1 } := by
        unfold runCloneStep
        rw [if_pos hitem]
      rw [hstep, ih]
      · simp [Nat.add_assoc, Nat.add_comm 1 rest.length]
      · intro it hit
        exact h it (by simp [hit])

/-- Membership in the `already_launched` name set built by
`get_files_to_copy`. -/
theorem mem_already_launched (tasks : List UploaderTaskRec)
    (o : StandingOrderRec) (s : String) :
    s ∈ tasks.filterMap (fun t =>
        if t.isUploader && t.standing_order_name == o.name
            && t.exception == none then
          some (basename t.store_path)
        else none) ↔
      ∃ t ∈ tasks, t.isUploader = true ∧ t.standing_order_name = o.name ∧
        t.exception = none ∧ basename t.store_path = s := by
  rw [List.mem_filterMap]
  constructor
  · rintro ⟨t, ht, hts⟩
    by_cases hcond : (t.isUploader && t.standing_order_name == o.name
        && t.exception == none) = true
    · rw [if_pos hcond] at hts
      simp only [Bool.and_eq_true, beq_iff_eq] at hcond
      injection hts with hts
      exact ⟨t, ht, hcond.1.1, hcond.1.2, hcond.2, hts⟩
    · rw [if_neg hcond] at hts
      exact Option.noConfusion hts
  · rintro ⟨t, ht, hup, hname, hexc, hbase⟩
    refine ⟨t, ht, ?_⟩
    rw [if_pos (by simp [hup, hname, hexc]), hbase]

/-- The event filter of `get_files_to_copy` passes a file exactly when no
marker event of the order's type is attached to it. -/
theorem no_matching_event_iff (events : List FileEventRec)
    (o : StandingOrderRec) (f : SearchFile) :
    (!(events.any (fun e => e.name == f.name && e.etype == event_type o)))
        = true ↔
      ¬ ∃ e ∈ events, e.name = f.name ∧ e.etype = event_type o := by
  rw [Bool.not_eq_true']
  constructor
  · intro hfalse
    rintro ⟨e, he, hen, het⟩
    have : events.any (fun e => e.name == f.name && e.etype == event_type o)
        = true :=
      List.any_eq_true.mpr ⟨e, he, by simp [hen, het]⟩
    rw [hfalse] at this
    exact Bool.noConfusion this
  · intro hno
    rw [← Bool.not_eq_true]
    intro hany
    obtain ⟨e, he, hcond⟩ := List.any_eq_true.mp hany
    simp only [Bool.and_eq_true, beq_iff_eq] at hcond
    exact hno ⟨e, he, hcond.1, hcond.2⟩

/-! ## Claim theorems -/

/-- Claim C1 (code bug): with two transfer managers that both report
success, the byte-transfer loop of `CreateClone.on_call` still attempts the
second manager after the first has succeeded, and the manager recorded as
`transfer_manager_name` is the last one iterated, not the first successful
one. This refutes the claim that the first successful manager is retained
and no later manager is attempted. -/
theorem createClone_attempts_later_manager_and_records_last :
    (processInstance c1Env 1 2 c1Inst 5 6 0).attemptedManagers = ["a", "b"] ∧
    (processInstance c1Env 1 2 c1Inst 5 6 0).transfer.transferManagerName
      = some "b" := by
  decide

/-- Claim C2 (code bug): with a first transfer manager reporting failure and
a second reporting success, `CreateClone.on_call` first marks the transfer
FAILED (via `fail_transfer`) and then moves the same record to STAGED and
COMPLETED, so FAILED is not terminal within one run. The recorded status
sequence of the single CloneTransfer row is PENDING, FAILED, STAGED,
COMPLETED. -/
theorem cloneTransfer_failed_then_completed :
    (processInstance c2Env 1 2 c1Inst 5 6 0).history
      = [TransferStatus.PENDING, TransferStatus.FAILED,
         TransferStatus.STAGED, TransferStatus.COMPLETED] ∧
    (processInstance c2Env 1 2 c1Inst 5 6 0).transfer.status
      = TransferStatus.COMPLETED := by
  decide

/-- Claim C3: every CloneTransfer record created during a run of the clone
orchestrator is in status COMPLETED or FAILED (never PENDING or STAGED) by
the time the run's summary is emitted, on every path through the staging,
transfer, commit and unstage checkpoints. -/
theorem clone_run_final_status_terminal (s d : Nat) (now : Int)
    (items : List SourceItem) (d0 : List String) (i0 : Nat)
    (r : PerInstanceResult)
    (hr : r ∈ (runClone s d now items d0 i0).results) :
    r.transfer.status = TransferStatus.COMPLETED ∨
    r.transfer.status = TransferStatus.FAILED := by
  refine runClone_results_terminal_aux s d now items _ ?_ r hr
  intro r0 hr0
  simp at hr0

/-- Witness for C3: a concrete run containing one transfer record. -/
theorem clone_run_final_status_terminal_witness :
    (processInstance c4GoodEnv 1 2 c1Inst 1 2 0)
        ∈ (runClone 1 2 0 c4GoodItems [] 1).results ∧
    ((processInstance c4GoodEnv 1 2 c1Inst 1 2 0).transfer.status
        = TransferStatus.COMPLETED ∨
     (processInstance c4GoodEnv 1 2 c1Inst 1 2 0).transfer.status
        = TransferStatus.FAILED) :=
  ⟨by decide,
   clone_run_final_status_terminal 1 2 0 c4GoodItems [] 1 _ (by decide)⟩

/-- Claim C4 (counterexample): when the single selected instance's transfer
fails, a second orchestrator run over the same instances with no new uploads
creates one brand-new CloneTransfer row and classifies nothing as
unnecessary — refuting the claim that a second run always creates zero new
CloneTransfer rows with every instance counted as unnecessary. -/
theorem clone_rerun_creates_new_transfer :
    (runClone 1 2 0 c4Items
      (runClone 1 2 0 c4Items [] 1).destFiles 10).results.length = 1 ∧
    (runClone 1 2 0 c4Items
      (runClone 1 2 0 c4Items [] 1).destFiles 10).unnecessaryClones = 0 := by
  decide

/-- Claim C4 (amended): running the clone orchestrator twice in succession
with no new uploads in between creates zero new CloneTransfer rows in the
second run — every instance is skipped and counted as unnecessary — provided
every instance of the first run completed or was itself unnecessary, i.e.
after the first run every selected file has an Instance on the destination
store. (A FAILED first-run transfer is instead re-attempted through a
brand-new CloneTransfer row.) -/
theorem clone_rerun_idempotent_after_success (s d : Nat) (now now2 : Int)
    (items : List SourceItem) (d0 : List String) (i0 i1 : Nat)
    (D : List String)
    (hD : D = (runClone s d now items d0 i0).destFiles)
    (h : ∀ item ∈ items, D.contains item.inst.file.name = true) :
    (runClone s d now2 items D i1).results = [] ∧
    (runClone s d now2 items D i1).unnecessaryClones = items.length := by
  have key := runClone_skips_when_present_aux s d now2 items
    { results := [], destFiles := D, successfulClones := 0
      unnecessaryClones := 0, nextId := i1 } h
  unfold runClone
  rw [key]
  simp

/-- Witness for the amended C4: after a successful first run, the second
run creates nothing and counts the instance as unnecessary. -/
theorem clone_rerun_idempotent_after_success_witness :
    (∀ item ∈ c4GoodItems,
      ((runClone 1 2 0 c4GoodItems [] 1).destFiles).contains
        item.inst.file.name = true) ∧
    (runClone 1 2 5 c4GoodItems
      (runClone 1 2 0 c4GoodItems [] 1).destFiles 10).results = [] ∧
    (runClone 1 2 5 c4GoodItems
      (runClone 1 2 0 c4GoodItems [] 1).destFiles 10).unnecessaryClones
      = c4GoodItems.length :=
  ⟨by decide,
   clone_rerun_idempotent_after_success 1 2 0 5 c4GoodItems [] 1 10 _ rfl
     (by decide)⟩

/-- Claim C5: in normal mode, of two `maybe_launch_copies` calls less than
the minimum interval (1200 s) apart, exactly one performs a real evaluation
of the persisted standing orders — the second returns skipped (False)
without touching any order or `last_check` — and a third call made after
the interval has elapsed since the first performs a second real
evaluation. -/
theorem standing_order_rate_limit (s0 : SOManagerState) (t0 t1 t2 : ℚ)
    (hr0 hr1 hr2 : Nat) (orders : List String)
    (ha : MIN_STANDING_ORDER_INTERVAL ≤ t0 - s0.last_check)
    (hb : t1 - t0 < MIN_STANDING_ORDER_INTERVAL)
    (hc : MIN_STANDING_ORDER_INTERVAL ≤ t2 - t0) :
    let r0 := SOManagerState.maybe_launch_copies s0 t0 hr0 "normal" orders
    let r1 := SOManagerState.maybe_launch_copies r0.state t1 hr1 "normal"
      orders
    let r2 := SOManagerState.maybe_launch_copies r1.state t2 hr2 "normal"
      orders
    r0.ret = true ∧ r0.evaluated = orders ∧
    r0.state = { s0 with last_check := t0 } ∧
    r1.ret = false ∧ r1.evaluated = [] ∧ r1.state = r0.state ∧
    r2.ret = true ∧ r2.evaluated = orders ∧
    r2.state = { s0 with last_check := t2 } := by
  have e0 : SOManagerState.maybe_launch_copies s0 t0 hr0 "normal" orders
      = { ret := true, state := { s0 with last_check := t0 }
          evaluated := orders } := by
    unfold SOManagerState.maybe_launch_copies
    rw [if_neg (by linarith), if_neg (by decide),
      if_neg (by rintro ⟨hmode, -⟩; exact absurd hmode (by decide))]
  have e1 : SOManagerState.maybe_launch_copies
      ({ last_check := t0, launch_queued := s0.launch_queued } :
        SOManagerState) t1 hr1 "normal" orders
      = { ret := false
          state := { last_check := t0, launch_queued := s0.launch_queued }
          evaluated := [] } := by
    unfold SOManagerState.maybe_launch_copies
    rw [if_pos (by simpa using hb)]
  have e2 : SOManagerState.maybe_launch_copies
      ({ last_check := t0, launch_queued := s0.launch_queued } :
        SOManagerState) t2 hr2 "normal" orders
      = { ret := true
          state := { last_check := t2, launch_queued := s0.launch_queued }
          evaluated := orders } := by
    unfold SOManagerState.maybe_launch_copies
    rw [if_neg (by simp only []; linarith), if_neg (by decide),
      if_neg (by rintro ⟨hmode, -⟩; exact absurd hmode (by decide))]
  simp [e0, e1, e2]

/-- Witness for C5: calls at 1200 s, 1300 s and 2500 s with `last_check`
initially 0. -/
theorem standing_order_rate_limit_witness :
    (SOManagerState.maybe_launch_copies ⟨0, false⟩ 1200 3 "normal"
      ["order-a"]).evaluated = ["order-a"] ∧
    (SOManagerState.maybe_launch_copies
      (SOManagerState.maybe_launch_copies ⟨0, false⟩ 1200 3 "normal"
        ["order-a"]).state 1300 3 "normal" ["order-a"]).ret = false ∧
    (SOManagerState.maybe_launch_copies
      (SOManagerState.maybe_launch_copies
        (SOManagerState.maybe_launch_copies ⟨0, false⟩ 1200 3 "normal"
          ["order-a"]).state 1300 3 "normal" ["order-a"]).state
      2500 3 "normal" ["order-a"]).evaluated = ["order-a"] := by
  have h := standing_order_rate_limit ⟨0, false⟩ 1200 1300 2500 3 3 3
    ["order-a"]
    (by norm_num [MIN_STANDING_ORDER_INTERVAL])
    (by norm_num [MIN_STANDING_ORDER_INTERVAL])
    (by norm_num [MIN_STANDING_ORDER_INTERVAL])
  exact ⟨h.2.1, h.2.2.2.1, h.2.2.2.2.2.2.2.1⟩

/-- Claim C6: a StandingOrder whose search does not compile is never
persisted. The constructor (used by create) validates by compiling and
fails when compilation fails; an update whose new search fails compilation
leaves the database — in particular the stored name, connection and search
of the order — unchanged; and both operations preserve the invariant that
every persisted order's search compiles. -/
theorem standing_order_validation (now : ℚ) (i : Nat) (name conn : String)
    (search : JVal) (dbase : List StandingOrderRec) (qname nn nc : String)
    (ns : JVal) :
    ((compileFileSearch now search).isOk = false →
      (StandingOrder_init now i name search conn).isOk = false) ∧
    ((compileFileSearch now ns).isOk = false →
      update_standing_order now dbase qname nn nc ns = dbase) ∧
    ((∀ o ∈ dbase, (compileFileSearch now o.search).isOk = true) →
      (∀ o ∈ create_standing_order now dbase i qname,
        (compileFileSearch now o.search).isOk = true) ∧
      (∀ o ∈ update_standing_order now dbase qname nn nc ns,
        (compileFileSearch now o.search).isOk = true)) := by
  refine ⟨?_, ?_, ?_⟩
  · intro hbad
    unfold StandingOrder_init
    cases hcs : compileFileSearch now search <;>
      simp_all [Except.isOk, Except.toBool]
  · intro hbad
    unfold update_standing_order
    cases hfind : dbase.find? (fun o => o.name == qname) with
    | none => rfl
    | some o =>
        cases hcs : compileFileSearch now ns with
        | ok p => simp_all [Except.isOk, Except.toBool]
        | error e => simp [hcs]
  · intro hinv
    constructor
    · intro o ho
      unfold create_standing_order at ho
      by_cases hn : qname.length = 0
      · rw [if_pos hn] at ho
        exact hinv o ho
      · rw [if_neg hn] at ho
        revert ho
        unfold StandingOrder_init
        cases hcs : compileFileSearch now default_search with
        | ok p =>
            intro ho
            simp only [List.mem_append, List.mem_singleton] at ho
            rcases ho with ho | ho
            · exact hinv o ho
            · subst ho
              simp [hcs, Except.isOk, Except.toBool]
        | error e =>
            intro ho
            exact hinv o ho
    · intro o ho
      unfold update_standing_order at ho
      cases hfind : dbase.find? (fun x => x.name == qname) with
      | none => rw [hfind] at ho; exact hinv o ho
      | some o0 =>
          rw [hfind] at ho
          cases hcs : compileFileSearch now ns with
          | ok p =>
              simp only [hcs] at ho
              simp only [List.mem_map] at ho
              obtain ⟨x, hx, hxo⟩ := ho
              by_cases hid : (x.id == o0.id) = true
              · rw [if_pos hid] at hxo
                subst hxo
                simp [hcs, Except.isOk, Except.toBool]
              · rw [if_neg hid] at hxo
                subst hxo
                exact hinv x hx
          | error e => simp only [hcs] at ho; exact hinv o ho

/-- Witness for C6: an update posting an uncompilable search leaves the
stored order untouched. -/
theorem standing_order_validation_witness :
    (compileFileSearch 0 w6bad).isOk = false ∧
    update_standing_order 0 w6dbase "so1" "so2" "conn2" w6bad = w6dbase := by
  have h := standing_order_validation 0 5 "nm" "cn" w6bad w6dbase "so1" "so2"
    "conn2" w6bad
  exact ⟨rfl, h.2.1 rfl⟩

/-- Claim C7: for any numeric attribute, any two numeric bounds in either
order and any entity, the compiled `in-range` predicate holds exactly when
the compiled `not-in-range` predicate does not; both normalize the pair so
the smaller bound comes first with both endpoints inclusive, and swapping
the bounds yields an identical compiled clause. -/
theorem num_range_clauses_spec {E : Type} (g : E → ℚ) (cname : String)
    (jx jy : JVal) (a b : ℚ) (hx : numVal jx = some a)
    (hy : numVal jy = some b) :
    (∀ pIn pOut,
      do_num_in_range g cname (JVal.arr [jx, jy]) = Except.ok pIn →
      do_num_not_in_range g cname (JVal.arr [jx, jy]) = Except.ok pOut →
      (∀ e, pIn e = !(pOut e)) ∧
      (∀ e, pIn e = (decide (min a b ≤ g e) && decide (g e ≤ max a b)))) ∧
    do_num_in_range g cname (JVal.arr [jx, jy])
      = do_num_in_range g cname (JVal.arr [jy, jx]) ∧
    do_num_not_in_range g cname (JVal.arr [jx, jy])
      = do_num_not_in_range g cname (JVal.arr [jy, jx]) := by
  have hmin : (if a > b then b else a) = min a b := by
    rcases le_or_lt a b with h | h
    · rw [if_neg (not_lt.mpr h), min_eq_left h]
    · rw [if_pos h, min_eq_right h.le]
  have hmax : (if a > b then a else b) = max a b := by
    rcases le_or_lt a b with h | h
    · rw [if_neg (not_lt.mpr h), max_eq_right h]
    · rw [if_pos h, max_eq_left h.le]
  have hmin2 : (if b > a then a else b) = min a b := by
    rcases le_or_lt b a with h | h
    · rw [if_neg (not_lt.mpr h), min_eq_right h]
    · rw [if_pos h, min_eq_left h.le]
  have hmax2 : (if b > a then b else a) = max a b := by
    rcases le_or_lt b a with h | h
    · rw [if_neg (not_lt.mpr h), max_eq_left h]
    · rw [if_pos h, max_eq_right h.le]
  refine ⟨?_, ?_, ?_⟩
  · intro pIn pOut hIn hOut
    unfold do_num_in_range at hIn
    unfold do_num_not_in_range at hOut
    dsimp only at hIn hOut
    rw [hx, hy] at hIn hOut
    simp only [Except.ok.injEq] at hIn hOut
    subst hIn
    subst hOut
    constructor
    · intro e
      by_cases h1 : (if a > b then b else a) ≤ g e
      · by_cases h2 : g e ≤ (if a > b then a else b)
        · simp [h1, h2, not_lt.mpr h1, not_lt.mpr h2]
        · simp [h1, h2, not_lt.mpr h1, not_le.mp h2]
      · by_cases h2 : g e ≤ (if a > b then a else b)
        · simp [h1, h2, not_le.mp h1, not_lt.mpr h2]
        · simp [h1, h2, not_le.mp h1, not_le.mp h2]
    · intro e
      simp only [hmin, hmax]
  · unfold do_num_in_range
    dsimp only
    rw [hx, hy]
    dsimp only
    simp only [hmin, hmax, hmin2, hmax2]
  · unfold do_num_not_in_range
    dsimp only
    rw [hx, hy]
    dsimp only
    simp only [hmin, hmax, hmin2, hmax2]

/-- Witness for C7: the `in-range` clause over bounds [3, 1] equals the one
over [1, 3]. -/
theorem num_range_clauses_spec_witness :
    (numVal (JVal.int 3) = some (3 : ℚ)) ∧
    do_num_in_range (fun q : ℚ => q) "size-in-range"
        (JVal.arr [JVal.int 3, JVal.int 1])
      = do_num_in_range (fun q : ℚ => q) "size-in-range"
        (JVal.arr [JVal.int 1, JVal.int 3]) := by
  have h := num_range_clauses_spec (fun q : ℚ => q) "size-in-range"
    (JVal.int 3) (JVal.int 1) 3 1 (by norm_num [numVal])
    (by norm_num [numVal])
  exact ⟨by norm_num [numVal], h.2.1⟩

/-- Claim C8: `get_files_to_copy` yields exactly the files matching the
order's compiled search that bear no FileEvent of type
`standing_order_succeeded:<order-name>` and whose name is not the
destination-path basename of any uploader task carrying this order's name
whose exception is `None` — so files whose only tasks ended in an exception
are yielded again for retry. -/
theorem get_files_to_copy_spec (now : ℚ) (o : StandingOrderRec)
    (files : List SearchFile) (events : List FileEventRec)
    (tasks : List UploaderTaskRec) (p : SearchFile → Bool)
    (l : List SearchFile) (f : SearchFile)
    (hc : compileFileSearch now o.search = Except.ok p)
    (hl : get_files_to_copy now o files events tasks = Except.ok l) :
    f ∈ l ↔
      f ∈ files ∧ p f = true ∧
      (¬ ∃ e ∈ events, e.name = f.name ∧ e.etype = event_type o) ∧
      (¬ ∃ t ∈ tasks, t.isUploader = true ∧ t.standing_order_name = o.name ∧
        t.exception = none ∧ basename t.store_path = f.name) := by
  unfold get_files_to_copy at hl
  rw [hc] at hl
  simp only [Except.ok.injEq] at hl
  subst hl
  rw [List.mem_filter, List.mem_filter, List.mem_filter]
  constructor
  · rintro ⟨⟨⟨hmemf, hpf⟩, hev⟩, hlaunch⟩
    refine ⟨hmemf, hpf, (no_matching_event_iff events o f).mp hev, ?_⟩
    rw [Bool.not_eq_true', ← Bool.not_eq_true, List.elem_iff] at hlaunch
    exact fun hex => hlaunch ((mem_already_launched tasks o f.name).mpr hex)
  · rintro ⟨hmemf, hpf, hev, hlaunch⟩
    refine ⟨⟨⟨hmemf, hpf⟩, (no_matching_event_iff events o f).mpr hev⟩, ?_⟩
    rw [Bool.not_eq_true', ← Bool.not_eq_true, List.elem_iff]
    exact fun hmem => hlaunch ((mem_already_launched tasks o f.name).mp hmem)

/-- Witness for C8: the order yields exactly `w8fileA` — `w8fileB` is
excluded by its marker event, `w8fileC` by its live copy task, while the
exception-terminated task for `w8fileA` does not exclude it. -/
theorem get_files_to_copy_spec_witness :
    get_files_to_copy 0 w8order w8files w8events w8tasks
      = Except.ok [w8fileA] ∧
    (w8fileA ∈ [w8fileA] ↔
      w8fileA ∈ w8files ∧ (fun (_ : SearchFile) => true) w8fileA = true ∧
      (¬ ∃ e ∈ w8events, e.name = w8fileA.name ∧
        e.etype = event_type w8order) ∧
      (¬ ∃ t ∈ w8tasks, t.isUploader = true ∧
        t.standing_order_name = w8order.name ∧ t.exception = none ∧
        basename t.store_path = w8fileA.name)) :=
  ⟨rfl,
   get_files_to_copy_spec 0 w8order w8files w8events w8tasks
     (fun _ => true) [w8fileA] w8fileA rfl rfl⟩

/-- Claim C9: whenever the orchestrator completes a clone, the Instance it
creates on the destination store records the source instance's
store-relative path verbatim, while the store path handed to `commit` is
the bare file name — so the recorded path and the committed location can
differ. -/
theorem clone_new_instance_path_verbatim (env : InstanceEnv)
    (srcS dstS : Nat) (inst : InstanceRec) (tid nid : Nat) (now : Int)
    (h : (processInstance env srcS dstS inst tid nid now).success = true) :
    ∃ ni, (processInstance env srcS dstS inst tid nid now).newInstance
        = some ni ∧
      ni.path = inst.path ∧
      (processInstance env srcS dstS inst tid nid now).commitCalls.map
        Prod.snd = [inst.file.name] := by
  unfold processInstance at *
  revert h
  split
  · intro h; simp at h
  · by_cases hs : (tmLoop env.transferManagers).success = true <;>
      by_cases hcm : env.commitExists = true <;>
      simp [hs, hcm, InstanceRec.new_instance]

/-- Witness for C9: a completed clone of an instance whose path
`2458001/b.uv` differs from its committed store path `b.uv`. -/
theorem clone_new_instance_path_verbatim_witness :
    (processInstance c9Env 1 2 c9Inst 7 8 0).success = true ∧
    (∃ ni, (processInstance c9Env 1 2 c9Inst 7 8 0).newInstance = some ni ∧
      ni.path = c9Inst.path ∧
      (processInstance c9Env 1 2 c9Inst 7 8 0).commitCalls.map Prod.snd
        = [c9Inst.file.name]) ∧
    c9Inst.path ≠ c9Inst.file.name :=
  ⟨by decide,
   clone_new_instance_path_verbatim c9Env 1 2 c9Inst 7 8 0 (by decide),
   by decide⟩

/-- Claim C10: once past the rate-limit guard, a `maybe_launch_copies`
call in mode `disabled` — or in mode `nighttime` with the local hour in
[8, 20) — returns True while leaving the manager state (in particular
`last_check`) unchanged and evaluating no order, so a mode-based skip does
not start a new rate-limit window. -/
theorem standing_order_mode_skip_frame (s : SOManagerState) (now : ℚ)
    (hour : Nat) (orders : List String)
    (hrate : MIN_STANDING_ORDER_INTERVAL ≤ now - s.last_check) :
    SOManagerState.maybe_launch_copies s now hour "disabled" orders
      = { ret := true, state := s, evaluated := [] } ∧
    (8 ≤ hour → hour < 20 →
      SOManagerState.maybe_launch_copies s now hour "nighttime" orders
        = { ret := true, state := s, evaluated := [] }) := by
  constructor
  · unfold SOManagerState.maybe_launch_copies
    rw [if_neg (by linarith), if_pos rfl]
  · intro h8 h20
    unfold SOManagerState.maybe_launch_copies
    rw [if_neg (by linarith), if_neg (by decide), if_pos ⟨rfl, h8, h20⟩]

/-- Witness for C10: at hour 9 with `last_check = 0` and `now = 1200`,
both mode-based skips report True and leave the state untouched. -/
theorem standing_order_mode_skip_frame_witness :
    MIN_STANDING_ORDER_INTERVAL
      ≤ (1200 : ℚ) - (⟨0, false⟩ : SOManagerState).last_check ∧
    SOManagerState.maybe_launch_copies ⟨0, false⟩ 1200 9 "disabled"
      ["order-a"] = { ret := true, state := ⟨0, false⟩, evaluated := [] } ∧
    SOManagerState.maybe_launch_copies ⟨0, false⟩ 1200 9 "nighttime"
      ["order-a"] = { ret := true, state := ⟨0, false⟩, evaluated := [] } := by
  have h := standing_order_mode_skip_frame ⟨0, false⟩ 1200 9 ["order-a"]
    (by norm_num [MIN_STANDING_ORDER_INTERVAL])
  exact ⟨by norm_num [MIN_STANDING_ORDER_INTERVAL], h.1,
    h.2 (by norm_num) (by norm_num)⟩
